import Mathlib

/-!
Verification of the miipa multi-tenant calendar synchronization core.

Shallow embedding of the TypeScript sources:
  src/lib/infrastructure/db/d1-event-repository.ts   (event cache, D1/SQLite)
  src/lib/infrastructure/crypto/web-crypto-encryption.ts
  src/unnamed/part_011  (D1SecretRepository)
  src/lib/infrastructure/calendar/google-provider.ts
  src/lib/infrastructure/calendar/oauth-service.ts
  src/lib/domain/calendar/types.ts  (getTodayRange / getWeekRange)
  src/unnamed/part_008  (syncCalendar / syncAllCalendars)
  src/app/api/calendars/[id]/route.ts  (DELETE handler)

Conventions of the embedding:
  - Timestamps are integers (milliseconds since the Unix epoch), as in the
    ECMAScript Date model.  The repository stores ISO-8601 strings produced by
    Date.toISOString and compares them in SQL; for the fixed-width format
    toISOString emits, lexicographic order coincides with chronological order,
    so the embedding compares the integers directly.
  - A D1/SQLite table is a list of rows; the statement INSERT OR REPLACE
    deletes any row sharing the primary key and appends the fresh row, and
    SELECT ... ORDER BY is modelled by a merge sort of the filtered rows.
  - Asynchronous effects (network fetches, D1 statement failures) are supplied
    by explicit oracle values of type Result; the state transition of a failed
    write is the identity (the failed statement leaves the table unchanged).
-/

namespace Miipa

/-- Result type from src/lib/domain/shared/result: a value of type ok or err. -/
inductive Result (α : Type) (ε : Type) where
  | ok (value : α)
  | err (error : ε)
deriving Repr, DecidableEq

/-- isErr from src/lib/domain/shared/result. -/
def Result.isErr {α ε : Type} : Result α ε → Bool
  | .ok _ => false
  | .err _ => true

/-- isOk from src/lib/domain/shared/result. -/
def Result.isOk {α ε : Type} : Result α ε → Bool
  | .ok _ => true
  | .err _ => false

/-- TimeRange from src/lib/domain/shared/types: an absolute start/end window.
The field named end in the source is written «end» to escape the keyword. -/
structure TimeRange where
  start : Int
  «end» : Int
deriving Repr, DecidableEq

/-- CalendarSource from src/lib/domain/calendar/types.ts. -/
structure CalendarSource where
  type : String
  calendarName : String
  accountEmail : Option String
deriving Repr, DecidableEq

/-- CalendarEvent entity as used by the repository and the sync use case
(fields bound in D1EventRepository.saveMany and produced by rowToEvent). -/
structure CalendarEvent where
  id : String
  calendarId : String
  title : String
  startTime : Int
  endTime : Int
  isAllDay : Bool
  location : Option String
  description : Option String
  source : CalendarSource
deriving Repr, DecidableEq

/-- CalendarConfig from src/lib/domain/calendar/types.ts.  The type field is a
string because the stored JSON is parsed without validation and the sync code
has an explicit branch for unsupported type strings. -/
structure CalendarConfig where
  id : String
  type : String
  name : String
  enabled : Bool
  color : Option String
  googleAccountEmail : Option String
  googleCalendarId : Option String
  icalUrl : Option String
deriving Repr, DecidableEq

-- ============================================================
-- Event cache: src/lib/infrastructure/db/d1-event-repository.ts
-- ============================================================

/-- Row of the calendar_events table (interface EventRow in the source).
The DB-maintained audit columns created_at / updated_at, filled by SQLite
datetime functions and never read back by the core, are elided. -/
structure EventRow where
  id : String
  calendar_id : String
  user_id : String
  title : String
  start_time : Int
  end_time : Int
  is_all_day : Nat
  location : Option String
  description : Option String
  source_type : String
  source_calendar_name : String
  source_account_email : Option String
deriving Repr, DecidableEq

/-- Row of the calendar_sync_state table (interface SyncStateRow). -/
structure SyncStateRow where
  calendar_id : String
  user_id : String
  last_sync_time : Int
deriving Repr, DecidableEq

/-- Row of the calendars table, as written by ensureCalendarRecord. -/
structure CalendarRecordRow where
  id : String
  user_id : String
  name : String
  type : String
  config : String
  is_active : Nat
deriving Repr, DecidableEq

/-- Primary key of calendar_events: the composite (id, calendar_id, user_id). -/
def eventRowKey (r : EventRow) : String × String × String :=
  (r.id, r.calendar_id, r.user_id)

/-- The VALUES tuple bound by D1EventRepository.saveMany for one event:
id, calendarId, the repository userId, title, ISO start/end, is_all_day as
1 or 0, optional location/description, and the source descriptor. -/
def eventToRow (userId : String) (e : CalendarEvent) : EventRow :=
  { id := e.id
    calendar_id := e.calendarId
    user_id := userId
    title := e.title
    start_time := e.startTime
    end_time := e.endTime
    is_all_day := if e.isAllDay then 1 else 0
    location := e.location
    description := e.description
    source_type := e.source.type
    source_calendar_name := e.source.calendarName
    source_account_email := e.source.accountEmail }

/-- One INSERT OR REPLACE INTO calendar_events: SQLite removes any row whose
primary key (id, calendar_id, user_id) conflicts, then inserts the new row. -/
def upsertEventRow (rows : List EventRow) (r : EventRow) : List EventRow :=
  rows.filter (fun x => !(decide (eventRowKey x = eventRowKey r))) ++ [r]

/-- saveMany (d1-event-repository.ts lines 175-229): a batch of one
INSERT OR REPLACE statement per event, executed in order; the empty batch
leaves the table unchanged (the source returns ok before preparing it). -/
def saveMany (userId : String) (rows : List EventRow) (events : List CalendarEvent) :
    List EventRow :=
  events.foldl (fun acc e => upsertEventRow acc (eventToRow userId e)) rows

/-- The WHERE clause of findByRange:
user_id = ? AND start_time <= range.end AND end_time >= range.start. -/
def inRange (userId : String) (range : TimeRange) (r : EventRow) : Bool :=
  decide (r.user_id = userId) && decide (r.start_time ≤ range.«end») &&
    decide (range.start ≤ r.end_time)

/-- findByRange (d1-event-repository.ts lines 108-127):
SELECT * FROM calendar_events WHERE user_id = ? AND start_time <= ?
AND end_time >= ? ORDER BY start_time ASC. -/
def findByRange (rows : List EventRow) (userId : String) (range : TimeRange) :
    List EventRow :=
  (rows.filter (inRange userId range)).mergeSort
    (fun a b => decide (a.start_time ≤ b.start_time))

/-- findByCalendarId (d1-event-repository.ts lines 138-163):
SELECT * FROM calendar_events WHERE user_id = ? AND calendar_id = ?
ORDER BY start_time ASC. -/
def findByCalendarId (rows : List EventRow) (userId : String) (calendarId : String) :
    List EventRow :=
  (rows.filter (fun r =>
      decide (r.user_id = userId) && decide (r.calendar_id = calendarId))).mergeSort
    (fun a b => decide (a.start_time ≤ b.start_time))

/-- deleteByCalendar (d1-event-repository.ts lines 240-257):
DELETE FROM calendar_events WHERE user_id = ? AND calendar_id = ?. -/
def deleteByCalendar (rows : List EventRow) (userId : String) (calendarId : String) :
    List EventRow :=
  rows.filter (fun r =>
    !(decide (r.user_id = userId) && decide (r.calendar_id = calendarId)))

/-- getLastSyncTime (d1-event-repository.ts lines 268-294):
SELECT last_sync_time FROM calendar_sync_state WHERE user_id = ? AND
calendar_id = ?; no row means never synced (none). -/
def getLastSyncTime (st : List SyncStateRow) (userId : String) (calendarId : String) :
    Option Int :=
  (st.find? (fun r =>
      decide (r.user_id = userId) && decide (r.calendar_id = calendarId))).map
    (fun r => r.last_sync_time)

/-- updateLastSyncTime (d1-event-repository.ts lines 307-331):
INSERT OR REPLACE INTO calendar_sync_state, primary key (calendar_id, user_id). -/
def updateLastSyncTime (st : List SyncStateRow) (userId : String)
    (calendarId : String) (time : Int) : List SyncStateRow :=
  st.filter (fun r =>
      !(decide (r.calendar_id = calendarId) && decide (r.user_id = userId))) ++
    [{ calendar_id := calendarId, user_id := userId, last_sync_time := time }]

/-- ensureCalendarRecord (d1-event-repository.ts lines 347-377):
INSERT OR IGNORE INTO calendars; the calendars table primary key is id, so the
insert is dropped whenever a row with the same id already exists. -/
def ensureCalendarRecord (cals : List CalendarRecordRow) (userId : String)
    (calendarId : String) (name : String) (type : String) (config : String)
    (isActive : Bool) : List CalendarRecordRow :=
  if cals.any (fun c => decide (c.id = calendarId)) then cals
  else cals ++ [{ id := calendarId, user_id := userId, name := name, type := type,
                  config := config, is_active := if isActive then 1 else 0 }]

-- ============================================================
-- Crypto: src/lib/infrastructure/crypto/web-crypto-encryption.ts
-- ============================================================

/-- CryptoError from the crypto module with the three factories used in src
(encryptionFailed, decryptionFailed, encryptionKeyInvalid); the opaque cause
payload is elided. -/
inductive CryptoError where
  | encryptionFailed (message : String)
  | decryptionFailed (message : String)
  | encryptionKeyInvalid (message : String)
deriving Repr, DecidableEq

/-- CRYPTO_CONSTANTS.IV_LENGTH: the per-call random nonce is 12 bytes. -/
def IV_LENGTH : Nat := 12

/-- The standard Base64 alphabet used by btoa and atob. -/
def base64Chars : List Char :=
  "ABCDEFGHIJKLMNOPQRSTUVWXYZabcdefghijklmnopqrstuvwxyz0123456789+/".toList

/-- Character for one six-bit group (btoa direction). -/
def sextetChar (n : Nat) : Char := base64Chars.getD n '?'

/-- Six-bit value of one Base64 character; none for a character outside the
alphabet, on which atob throws. -/
def charSextet (c : Char) : Option Nat := base64Chars.findIdx? (fun x => x = c)

/-- uint8ArrayToBase64 (web-crypto-encryption.ts lines 35-41): btoa over the
byte string, emitting four characters per three-byte group with padding. -/
def encodeB64 : List Nat → List Char
  | [] => []
  | [b1] => [sextetChar (b1 / 4), sextetChar (b1 % 4 * 16), '=', '=']
  | [b1, b2] =>
      [sextetChar (b1 / 4), sextetChar (b1 % 4 * 16 + b2 / 16),
       sextetChar (b2 % 16 * 4), '=']
  | b1 :: b2 :: b3 :: rest =>
      sextetChar (b1 / 4) :: sextetChar (b1 % 4 * 16 + b2 / 16) ::
      sextetChar (b2 % 16 * 4 + b3 / 64) :: sextetChar (b3 % 64) :: encodeB64 rest

/-- base64ToUint8Array (web-crypto-encryption.ts lines 48-55): atob then
bytes.  The input is consumed in four-character groups; a group ending in
one or two padding characters must be the last one; malformed input (a
character outside the alphabet, stray padding, or a length not a multiple
of four) makes atob throw, which the callers surface as an error, so the
embedding returns none for it. -/
def decodeB64 : List Char → Option (List Nat)
  | [] => some []
  | c1 :: c2 :: c3 :: c4 :: rest =>
    match charSextet c1, charSextet c2 with
    | some s1, some s2 =>
      if c3 = '=' then
        if c4 = '=' ∧ rest = [] then some [s1 * 4 + s2 / 16] else none
      else
        match charSextet c3 with
        | some s3 =>
          if c4 = '=' then
            if rest = [] then some [s1 * 4 + s2 / 16, s2 % 16 * 16 + s3 / 4]
            else none
          else
            match charSextet c4, decodeB64 rest with
            | some s4, some bs =>
                some ((s1 * 4 + s2 / 16) :: (s2 % 16 * 16 + s3 / 4) ::
                  (s3 % 4 * 64 + s4) :: bs)
            | _, _ => none
        | none => none
    | _, _ => none
  | _ => none

/-- Interface of the AES-256-GCM primitive behind crypto.subtle: enc takes
key, iv and plaintext bytes and yields ciphertext-plus-authentication-tag
bytes; dec verifies the tag and either recovers the plaintext or rejects.
The primitive is the platform Web Crypto API, outside this repository, so the
development is parameterized over it and the AEAD contract (round-trip,
authenticity) enters the theorems as hypotheses. -/
structure AeadPrim where
  enc : List Nat → List Nat → List Nat → List Nat
  dec : List Nat → List Nat → List Nat → Option (List Nat)

/-- encrypt (web-crypto-encryption.ts lines 124-157): a fresh random 12-byte
iv (passed explicitly here, standing for crypto.getRandomValues), the UTF-8
plaintext bytes are encrypted, iv and ciphertext are concatenated and Base64
encoded.  Plaintext is taken as its TextEncoder byte sequence. -/
def encrypt (prim : AeadPrim) (iv : List Nat) (plaintext : List Nat)
    (key : List Nat) : Result (List Char) CryptoError :=
  let encryptedBytes := prim.enc key iv plaintext
  let combined := iv ++ encryptedBytes
  .ok (encodeB64 combined)

/-- decrypt (web-crypto-encryption.ts lines 173-205): Base64 decode (an atob
throw is caught and reported as decryptionFailed), split the first 12 bytes
off as the iv, hand the rest to the AEAD; a rejected tag is decryptionFailed. -/
def decrypt (prim : AeadPrim) (encrypted : List Char) (key : List Nat) :
    Result (List Nat) CryptoError :=
  match decodeB64 encrypted with
  | none => .err (.decryptionFailed "decryption failed: corrupt data or wrong key")
  | some combined =>
    let iv := combined.take IV_LENGTH
    let ciphertext := combined.drop IV_LENGTH
    match prim.dec key iv ciphertext with
    | none => .err (.decryptionFailed "decryption failed: corrupt data or wrong key")
    | some plaintextBytes => .ok plaintextBytes

-- ============================================================
-- Secret store: src/unnamed/part_011 (D1SecretRepository)
-- ============================================================

/-- SecretError with the factories used in src (secretReadFailed,
secretWriteFailed, secretDeleteFailed); cause elided. -/
inductive SecretError where
  | secretReadFailed (key : String) (message : String)
  | secretWriteFailed (key : String) (message : String)
  | secretDeleteFailed (key : String) (message : String)
deriving Repr, DecidableEq

/-- Row of the credentials table (interface CredentialRow in part_011);
encrypted_value holds the Base64 ciphertext string. -/
structure CredRow where
  user_id : String
  key : String
  encrypted_value : List Char
deriving Repr, DecidableEq

/-- D1SecretRepository.getSecret (part_011 lines 97-135):
SELECT encrypted_value FROM credentials WHERE user_id = ? AND key = ?;
no row yields ok null, a row is decrypted and a decryption error is wrapped
as secretReadFailed.  The decrypted value is returned as its byte sequence
(the source decodes it to a string with TextDecoder). -/
def getSecret (prim : AeadPrim) (creds : List CredRow) (cryptoKey : List Nat)
    (userId key : String) : Result (Option (List Nat)) SecretError :=
  match creds.find? (fun r => decide (r.user_id = userId) && decide (r.key = key)) with
  | none => .ok none
  | some row =>
    match decrypt prim row.encrypted_value cryptoKey with
    | .err _ => .err (.secretReadFailed key "failed to decrypt secret")
    | .ok value => .ok (some value)

/-- D1SecretRepository.setSecret (part_011 lines 147-180): encrypt, then
INSERT OR REPLACE INTO credentials with primary key (user_id, key). -/
def setSecret (prim : AeadPrim) (iv : List Nat) (creds : List CredRow)
    (cryptoKey : List Nat) (userId key : String) (value : List Nat) :
    Result (List CredRow) SecretError :=
  match encrypt prim iv value cryptoKey with
  | .err _ => .err (.secretWriteFailed key "failed to encrypt secret")
  | .ok encryptedValue =>
    .ok ((creds.filter (fun r =>
        !(decide (r.user_id = userId) && decide (r.key = key)))) ++
      [{ user_id := userId, key := key, encrypted_value := encryptedValue }])

-- ============================================================
-- OAuth and the Google provider:
-- src/lib/infrastructure/calendar/oauth-service.ts
-- src/lib/infrastructure/calendar/google-provider.ts
-- ============================================================

/-- OAuthTokens from oauth-service.ts: access token, refresh token, absolute
expiry instant (milliseconds). -/
structure OAuthTokens where
  accessToken : String
  refreshToken : String
  expiresAt : Int
deriving Repr, DecidableEq

/-- isTokenExpired (oauth-service.ts lines 377-380): true when
now + 5-minute buffer is at or past expiresAt. -/
def isTokenExpired (now expiresAt : Int) : Bool :=
  decide (now + 5 * 60 * 1000 ≥ expiresAt)

/-- Modelled from the spec: token-store isTokenExpired (the token-store module
is not under src/; only its callers are).  The spec fixes the check as the
5-minute safety buffer, now + buffer at or past expiresAt triggering refresh,
which also matches oauth-service isTokenExpired present in src. -/
def tokenStoreIsTokenExpired (now : Int) (tokens : OAuthTokens) : Bool :=
  isTokenExpired now tokens.expiresAt

/-- CalendarError from the calendar domain with the factories used in src
(authExpired, apiError, networkError, authRequired); cause elided. -/
inductive CalendarError where
  | authExpired (account : String) (message : String)
  | apiError (message : String) (status : Nat)
  | networkError (message : String)
  | authRequired (message : String)
deriving Repr, DecidableEq

/-- Observable external actions of one Google provider call, in order:
the OAuth token-endpoint refresh, the Secret Store token write-back, and the
upstream calendar API request. -/
inductive ProviderAction where
  | refreshCall
  | saveTokensCall
  | fetchUpstream
deriving Repr, DecidableEq

/-- Oracle outcomes for the asynchronous calls one provider operation makes:
the refreshToken network call, the tokenStore.saveTokens write-back, and the
upstream events fetch (already converted to canonical events, folding
convertToCalendarEvent and handleFetchError over the unmodelled JSON). -/
structure GoogleProviderEffects where
  refreshResult : Result OAuthTokens CalendarError
  saveResult : Result Unit SecretError
  fetchResult : Result (List CalendarEvent) CalendarError

/-- GoogleCalendarProvider.ensureValidToken (google-provider.ts lines
236-270): a token not yet inside the 5-minute buffer is used as is; otherwise
the refresh endpoint is called, a refresh failure becomes authExpired, and on
success the new tokens replace the in-memory pair and, only when the provider
was constructed with a secret repository, a write-back is attempted whose
failure is logged and ignored.  Returns the auth result, the tokens the
provider now holds, and the trace of external actions. -/
def ensureValidToken (now : Int) (eff : GoogleProviderEffects)
    (accountEmail : String) (tokens : OAuthTokens) (hasSecretRepo : Bool) :
    Result Unit CalendarError × OAuthTokens × List ProviderAction :=
  if !tokenStoreIsTokenExpired now tokens then
    (.ok (), tokens, [])
  else
    match eff.refreshResult with
    | .err _ =>
        (.err (.authExpired accountEmail "failed to refresh token"), tokens,
         [.refreshCall])
    | .ok newTokens =>
        if hasSecretRepo then
          (.ok (), newTokens, [.refreshCall, .saveTokensCall])
        else
          (.ok (), newTokens, [.refreshCall])

/-- GoogleCalendarProvider.getEvents (google-provider.ts lines 183-222):
ensureValidToken first; only when it succeeds is the upstream calendar API
request issued, whose items are converted to canonical events. -/
def googleGetEvents (now : Int) (eff : GoogleProviderEffects)
    (accountEmail : String) (tokens : OAuthTokens) (hasSecretRepo : Bool)
    (_calendarId : String) (_range : TimeRange) :
    Result (List CalendarEvent) CalendarError × OAuthTokens × List ProviderAction :=
  match ensureValidToken now eff accountEmail tokens hasSecretRepo with
  | (.err e, tokens1, trace) => (.err e, tokens1, trace)
  | (.ok _, tokens1, trace) =>
    match eff.fetchResult with
    | .err e => (.err e, tokens1, trace ++ [.fetchUpstream])
    | .ok events => (.ok events, tokens1, trace ++ [.fetchUpstream])

-- ============================================================
-- Query windows: src/lib/domain/calendar/types.ts
-- ============================================================

/-- DateRangeResult from src/lib/domain/calendar/types.ts. -/
structure DateRangeResult where
  startDate : Int
  endDate : Int
deriving Repr, DecidableEq

/-- Milliseconds per day. -/
def msPerDay : Int := 86400000

/-- JST_OFFSET_MS from types.ts: UTC+9 hours in milliseconds. -/
def JST_OFFSET_MS : Int := 9 * 60 * 60 * 1000

/-- getTodayRange (types.ts lines 174-192).  The source shifts now by the JST
offset, reads the UTC calendar day of the shifted instant with
getUTCFullYear, getUTCMonth and getUTCDate, and rebuilds Date.UTC of that day
at 00:00:00.000 and 23:59:59.999, shifting back.  By the ECMAScript Date
model, recomposing Date.UTC of the extracted (year, month, day) at midnight
is exactly msPerDay times Day(t), with Day(t) the floor division of the time
value by msPerDay; Lean Int division by a positive divisor is that floor. -/
def getTodayRange (now : Int) : DateRangeResult :=
  let jstNow := now + JST_OFFSET_MS
  let dayStart := msPerDay * (jstNow / msPerDay)
  { startDate := dayStart - JST_OFFSET_MS
    endDate := dayStart + (msPerDay - 1) - JST_OFFSET_MS }

/-- getWeekRange (types.ts lines 211-229): same day extraction as
getTodayRange, but the end is Date.UTC of (year, month, day + 7) at
23:59:59.999 shifted back, i.e. seven whole days past the start day plus the
end-of-day offset.  Date.UTC carries day + 7 over month boundaries, so it is
msPerDay times (Day(t) + 7) plus msPerDay - 1. -/
def getWeekRange (now : Int) : DateRangeResult :=
  let jstNow := now + JST_OFFSET_MS
  let dayStart := msPerDay * (jstNow / msPerDay)
  { startDate := dayStart - JST_OFFSET_MS
    endDate := dayStart + 7 * msPerDay + (msPerDay - 1) - JST_OFFSET_MS }

-- ============================================================
-- Sync use case: src/unnamed/part_008 (syncCalendar / syncAllCalendars)
-- ============================================================

/-- ConfigError from src/lib/domain/shared/errors as used here (payload
elided to the message). -/
structure ConfigError where
  message : String
deriving Repr, DecidableEq

/-- SyncErrorCode from part_008 lines 75-80. -/
inductive SyncErrorCode where
  | SYNC_CONFIG_ERROR
  | SYNC_DB_ERROR
  | SYNC_PROVIDER_ERROR
  | SYNC_CALENDAR_NOT_FOUND
  | SYNC_TOKEN_NOT_FOUND
deriving Repr, DecidableEq

/-- SyncError from part_008 lines 87-96; the cause payload is elided. -/
structure SyncError where
  code : SyncErrorCode
  message : String
  calendarId : Option String
deriving Repr, DecidableEq

/-- syncConfigError factory (part_008 lines 143-145). -/
def syncConfigError (message : String) : SyncError :=
  { code := .SYNC_CONFIG_ERROR, message := message, calendarId := none }

/-- syncDbError factory (part_008 lines 150-156). -/
def syncDbError (message : String) (calendarId : Option String) : SyncError :=
  { code := .SYNC_DB_ERROR, message := message, calendarId := calendarId }

/-- syncProviderError factory (part_008 lines 161-167). -/
def syncProviderError (message : String) (calendarId : String) : SyncError :=
  { code := .SYNC_PROVIDER_ERROR, message := message, calendarId := some calendarId }

/-- syncCalendarNotFound factory (part_008 lines 172-178). -/
def syncCalendarNotFound (calendarId : String) : SyncError :=
  { code := .SYNC_CALENDAR_NOT_FOUND, message := "calendar not found",
    calendarId := some calendarId }

/-- syncTokenNotFound factory (part_008 lines 183-192). -/
def syncTokenNotFound (calendarId : String) (accountEmail : String) : SyncError :=
  { code := .SYNC_TOKEN_NOT_FOUND,
    message := "credentials not found: " ++ accountEmail,
    calendarId := some calendarId }

/-- ErrorCalendarInfo from part_008 lines 101-108. -/
structure ErrorCalendarInfo where
  calendarId : String
  name : String
  error : SyncError
deriving Repr, DecidableEq

/-- SyncAllResult from part_008 lines 113-122. -/
structure SyncAllResult where
  successCount : Nat
  errorCalendars : List ErrorCalendarInfo
  totalCount : Nat
  syncedAt : Int
deriving Repr, DecidableEq

/-- SyncResult from part_008 lines 127-134. -/
structure SyncResult where
  calendarId : String
  eventCount : Nat
  syncedAt : Int
deriving Repr, DecidableEq

/-- InternalSyncResult from part_008 lines 401-407. -/
structure InternalSyncResult where
  calendarId : String
  name : String
  success : Bool
  eventCount : Option Nat
  error : Option SyncError
deriving Repr, DecidableEq

/-- The persistent D1 state the sync core reads and writes: the event cache,
the per-calendar sync state and the calendars records. -/
structure Db where
  events : List EventRow
  syncState : List SyncStateRow
  calendars : List CalendarRecordRow
deriving Repr, DecidableEq

/-- Oracle inputs of one sync run: the config load, the stored-token lookup
per Google account (the JSON.parse of a stored token blob is folded into the
parsed OAuthTokens), the shared clock and sync window (getSyncTimeRange is a
pure function of the server-local clock, opaque here), the per-calendar
provider-call outcomes, and the success of each D1 write statement (a failed
statement leaves the table unchanged). -/
structure SyncEffects where
  configLoad : Result (Option (List CalendarConfig)) ConfigError
  getTokens : String → Result (Option OAuthTokens) SecretError
  now : Int
  timeRange : TimeRange
  google : CalendarConfig → GoogleProviderEffects
  icalFetch : CalendarConfig → Result (List CalendarEvent) CalendarError
  ensureOk : CalendarConfig → Bool
  saveOk : CalendarConfig → Bool
  updateOk : CalendarConfig → Bool

/-- fetchGoogleCalendarEvents (part_008 lines 549-619): require the Google
account email and provider calendar id, look the token blob up in the Secret
Store (a read error or absence is SYNC_TOKEN_NOT_FOUND territory), build a
GoogleCalendarProvider with the account email and tokens and NO secret
repository (line 592 passes only two constructor arguments), call getEvents,
and stamp the config's calendar id and display name onto the events. -/
def fetchGoogleCalendarEvents (eff : SyncEffects) (cfg : CalendarConfig) :
    Result (List CalendarEvent) SyncError × List ProviderAction :=
  match cfg.googleAccountEmail, cfg.googleCalendarId with
  | some accountEmail, some googleCalendarId =>
    match eff.getTokens accountEmail with
    | .err _ =>
        (.err { code := .SYNC_TOKEN_NOT_FOUND,
                message := "failed to read credentials: " ++ accountEmail,
                calendarId := some cfg.id }, [])
    | .ok none => (.err (syncTokenNotFound cfg.id accountEmail), [])
    | .ok (some tokens) =>
      match googleGetEvents eff.now (eff.google cfg) accountEmail tokens false
          googleCalendarId eff.timeRange with
      | (.err _, _, trace) =>
          (.err (syncProviderError "failed to fetch events from Google" cfg.id),
           trace)
      | (.ok events, _, trace) =>
          (.ok (events.map (fun event =>
            { event with
                calendarId := cfg.id
                source := { event.source with calendarName := cfg.name } })),
           trace)
  | _, _ => (.err (syncProviderError "incomplete Google calendar config" cfg.id), [])

/-- fetchICalEvents (part_008 lines 624-650): require the iCal URL, build an
ICalProvider and call getEvents; a provider failure is wrapped as
SYNC_PROVIDER_ERROR.  The upstream HTTPS fetch is the traced action. -/
def fetchICalEvents (eff : SyncEffects) (cfg : CalendarConfig) :
    Result (List CalendarEvent) SyncError × List ProviderAction :=
  match cfg.icalUrl with
  | none => (.err (syncProviderError "iCal URL is not configured" cfg.id), [])
  | some _ =>
    match eff.icalFetch cfg with
    | .err _ =>
        (.err (syncProviderError "failed to fetch events from iCal" cfg.id),
         [.fetchUpstream])
    | .ok events => (.ok events, [.fetchUpstream])

/-- fetchEventsFromProvider (part_008 lines 518-539): dispatch on the config
type string; anything other than google or ical is an unsupported-type
SYNC_PROVIDER_ERROR with no provider constructed. -/
def fetchEventsFromProvider (eff : SyncEffects) (cfg : CalendarConfig) :
    Result (List CalendarEvent) SyncError × List ProviderAction :=
  if cfg.type = "google" then fetchGoogleCalendarEvents eff cfg
  else if cfg.type = "ical" then fetchICalEvents eff cfg
  else (.err { code := .SYNC_PROVIDER_ERROR,
               message := "unsupported calendar type: " ++ cfg.type,
               calendarId := some cfg.id }, [])

/-- Stand-in for JSON.stringify(calendarConfig) stored in the calendars row:
the blob is written, never read back by the core, so the embedding records
the config's id. -/
def configBlob (cfg : CalendarConfig) : String := cfg.id

/-- syncSingleCalendar (part_008 lines 422-506): fetch from the provider
(failure is captured, not thrown), ensure the calendars record exists (an
ensure failure is only warned about), upsert the events (a save failure makes
the calendar fail), and update the sync state (an update failure is only
warned about, the calendar still succeeds). -/
def syncSingleCalendar (eff : SyncEffects) (db : Db) (cfg : CalendarConfig)
    (userId : String) (syncTime : Int) :
    InternalSyncResult × Db × List ProviderAction :=
  match fetchEventsFromProvider eff cfg with
  | (.err e, trace) =>
      ({ calendarId := cfg.id, name := cfg.name, success := false,
         eventCount := none, error := some e }, db, trace)
  | (.ok events, trace) =>
    let db1 :=
      if eff.ensureOk cfg then
        { db with calendars := (ensureCalendarRecord db.calendars userId cfg.id
            cfg.name cfg.type (configBlob cfg) cfg.enabled) }
      else db
    if eff.saveOk cfg then
      let db2 := { db1 with events := saveMany userId db1.events events }
      let db3 :=
        if eff.updateOk cfg then
          { db2 with syncState := (updateLastSyncTime db2.syncState userId cfg.id
              syncTime) }
        else db2
      ({ calendarId := cfg.id, name := cfg.name, success := true,
         eventCount := some events.length, error := none }, db3, trace)
    else
      ({ calendarId := cfg.id, name := cfg.name, success := false,
         eventCount := none,
         error := some (syncDbError "failed to save events" (some cfg.id)) },
       db1, trace)

/-- The per-calendar failure criterion of syncSingleCalendar: a calendar
fails its sync step exactly when the provider fetch errs or the event save
statement errs (ensure and sync-state failures are downgraded to warnings). -/
def calendarFails (eff : SyncEffects) (cfg : CalendarConfig) : Bool :=
  (fetchEventsFromProvider eff cfg).1.isErr || !(eff.saveOk cfg)

/-- The aggregation step of syncAllCalendars for one result: the source
filters to failed results carrying an error and maps them to
ErrorCalendarInfo; fused here into one Option-valued function. -/
def errCalendarInfoOf (r : InternalSyncResult) : Option ErrorCalendarInfo :=
  if r.success then none
  else r.error.map (fun e =>
    { calendarId := r.calendarId, name := r.name, error := e })

/-- The Promise.all fan-out of part_008 lines 370-374: one syncSingleCalendar
per enabled calendar, results collected in input order.  Every write is
partitioned by (userId, calendarId), so the concurrent run is serialized
here without changing the reachable final state. -/
def syncFanOut (eff : SyncEffects) (userId : String) (syncTime : Int) :
    List CalendarConfig → Db → List InternalSyncResult × Db × List ProviderAction
  | [], db => ([], db, [])
  | cfg :: rest, db =>
    let (r, db1, trace) := syncSingleCalendar eff db cfg userId syncTime
    let (rs, db2, traces) := syncFanOut eff userId syncTime rest db1
    (r :: rs, db2, trace ++ traces)

/-- syncAllCalendars (part_008 lines 340-392): a config-load failure aborts
the whole batch; a stored null is an empty list; zero enabled calendars
short-circuit to the empty success report before any provider is touched;
otherwise one shared syncTime is captured, the fan-out runs, and the report
counts successes and collects the failed calendars. -/
def syncAllCalendars (eff : SyncEffects) (db : Db) (userId : String) :
    Result SyncAllResult SyncError × Db × List ProviderAction :=
  match eff.configLoad with
  | .err _ => (.err (syncConfigError "failed to load settings"), db, [])
  | .ok stored =>
    let calendars := stored.getD []
    let enabledCalendars := calendars.filter (fun c => c.enabled)
    if enabledCalendars.isEmpty then
      (.ok { successCount := 0, errorCalendars := [], totalCount := 0,
             syncedAt := eff.now }, db, [])
    else
      let syncTime := eff.now
      let (syncResults, db1, trace) :=
        syncFanOut eff userId syncTime enabledCalendars db
      let successCount := (syncResults.filter (fun r => r.success)).length
      let errorCalendars := syncResults.filterMap errCalendarInfoOf
      (.ok { successCount := successCount, errorCalendars := errorCalendars,
             totalCount := enabledCalendars.length, syncedAt := syncTime },
       db1, trace)

/-- syncCalendar (part_008 lines 246-308): load the config list, find the one
calendar (not found is an error), fetch from its provider, upsert the events
(a save failure is an error), and update the sync state (an update failure is
only warned about).  Unlike the batch path it never calls
ensureCalendarRecord. -/
def syncCalendar (eff : SyncEffects) (db : Db) (userId : String)
    (calendarId : String) :
    Result SyncResult SyncError × Db × List ProviderAction :=
  match eff.configLoad with
  | .err _ => (.err (syncConfigError "failed to load settings"), db, [])
  | .ok stored =>
    let calendars := stored.getD []
    match calendars.find? (fun c => c.id = calendarId) with
    | none => (.err (syncCalendarNotFound calendarId), db, [])
    | some calendarConfig =>
      match fetchEventsFromProvider eff calendarConfig with
      | (.err e, trace) => (.err e, db, trace)
      | (.ok events, trace) =>
        if eff.saveOk calendarConfig then
          let db1 := { db with events := saveMany userId db.events events }
          let syncTime := eff.now
          let db2 :=
            if eff.updateOk calendarConfig then
              { db1 with syncState := (updateLastSyncTime db1.syncState userId
                  calendarId syncTime) }
            else db1
          (.ok { calendarId := calendarId, eventCount := events.length,
                 syncedAt := syncTime }, db2, trace)
        else
          (.err (syncDbError "failed to save events" (some calendarId)), db, trace)

-- ============================================================
-- Calendar deletion: src/app/api/calendars/[id]/route.ts (DELETE)
-- ============================================================

/-- Outcome of the DELETE handler: the HTTP status, the calendar list written
back by setSetting when that point is reached, and the resulting D1 state. -/
structure DeleteResponse where
  status : Nat
  calendarsSetting : Option (List CalendarConfig)
  db : Db
deriving Repr, DecidableEq

/-- DELETE /api/calendars/[id] (route.ts lines 83-214), after the
authentication and context plumbing (elided environmental preconditions):
load the calendars setting (failure is 500), find the calendar by id (absence
is 404), remove it from the list and save the setting (failure is 500), then
delete the cached events via deleteByCalendar, whose failure is only warned
about while the handler still answers 204.  Nothing in the handler touches
calendar_sync_state. -/
def deleteCalendarHandler (configLoad : Result (Option (List CalendarConfig)) ConfigError)
    (saveOk deleteOk : Bool) (db : Db) (userId id : String) : DeleteResponse :=
  match configLoad with
  | .err _ => { status := 500, calendarsSetting := none, db := db }
  | .ok stored =>
    let calendars := stored.getD []
    match calendars.findIdx? (fun c => c.id = id) with
    | none => { status := 404, calendarsSetting := none, db := db }
    | some calendarIndex =>
      let updatedCalendars :=
        calendars.take calendarIndex ++ calendars.drop (calendarIndex + 1)
      if !saveOk then { status := 500, calendarsSetting := none, db := db }
      else
        let db1 :=
          if deleteOk then { db with events := deleteByCalendar db.events userId id }
          else db
        { status := 204, calendarsSetting := some updatedCalendars, db := db1 }

-- ============================================================
-- Concrete fixtures used to instantiate theorem hypotheses
-- ============================================================

/-- An empty D1 state. -/
def emptyDb : Db := { events := [], syncState := [], calendars := [] }

/-- A well-formed Google calendar config. -/
def sampleGoogleConfig : CalendarConfig :=
  { id := "gcal", type := "google", name := "Work", enabled := true,
    color := none, googleAccountEmail := some "a@example.com",
    googleCalendarId := some "primary", icalUrl := none }

/-- A well-formed iCal calendar config. -/
def sampleICalConfig : CalendarConfig :=
  { id := "ical1", type := "ical", name := "Holidays", enabled := true,
    color := none, googleAccountEmail := none, googleCalendarId := none,
    icalUrl := some "https://example.com/h.ics" }

/-- A token pair with the given expiry. -/
def sampleTokens (expiresAt : Int) : OAuthTokens :=
  { accessToken := "at", refreshToken := "rt", expiresAt := expiresAt }

/-- Effects of a run at instant 10000000 where the stored Google token is
long expired, the refresh endpoint succeeds, and every fetch and D1 write
succeeds. -/
def sampleEffects : SyncEffects :=
  { configLoad := .ok (some [sampleGoogleConfig, sampleICalConfig])
    getTokens := fun _ => .ok (some (sampleTokens 0))
    now := 10000000
    timeRange := { start := 0, «end» := 1 }
    google := fun _ =>
      { refreshResult := .ok (sampleTokens 999999999), saveResult := .ok (),
        fetchResult := .ok [] }
    icalFetch := fun _ => .ok []
    ensureOk := fun _ => true
    saveOk := fun _ => true
    updateOk := fun _ => true }

/-- A toy AEAD instantiation used to discharge the hypotheses of the theorems
parameterized over the Web Crypto primitive: the ciphertext is the plaintext
followed by a one-byte keyed checksum, verified on decryption. -/
def toyAead : AeadPrim :=
  { enc := fun key iv m => m ++ [(m.sum + key.sum + iv.sum) % 256]
    dec := fun key iv c =>
      if c.getLast? = some ((c.dropLast.sum + key.sum + iv.sum) % 256)
      then some c.dropLast else none }

/-- A cached event row of a calendar unrelated to the sample configs. -/
def sampleRow : EventRow :=
  { id := "e1", calendar_id := "X", user_id := "u", title := "t",
    start_time := 0, end_time := 1, is_all_day := 0, location := none,
    description := none, source_type := "ical", source_calendar_name := "n",
    source_account_email := none }

/-- A D1 state holding only the sample row. -/
def sampleDb : Db := { events := [sampleRow], syncState := [], calendars := [] }

-- ============================================================
-- Lemmas about the event cache
-- ============================================================

theorem upsertEventRow_mem_of_ne {rows : List EventRow} {r x : EventRow}
    (hmem : r ∈ rows) (hne : eventRowKey r ≠ eventRowKey x) :
    r ∈ upsertEventRow rows x := by
  unfold upsertEventRow
  refine List.mem_append_left _ ?_
  exact List.mem_filter.mpr ⟨hmem, by simp [hne]⟩

theorem saveMany_mem_of_key_not_saved {userId : String} {rows : List EventRow}
    {events : List CalendarEvent} {r : EventRow} (hmem : r ∈ rows)
    (hkey : ∀ e ∈ events, eventRowKey r ≠ eventRowKey (eventToRow userId e)) :
    r ∈ saveMany userId rows events := by
  induction events generalizing rows with
  | nil => exact hmem
  | cons e es ih =>
    simp only [saveMany, List.foldl_cons] at *
    exact ih (upsertEventRow_mem_of_ne hmem (hkey e (List.mem_cons_self e es)))
      (fun e' he' => hkey e' (List.mem_cons_of_mem e he'))

theorem upsertEventRow_filter_key (rows : List EventRow) (r : EventRow) :
    (upsertEventRow rows r).filter
      (fun x => decide (eventRowKey x = eventRowKey r)) = [r] := by
  unfold upsertEventRow
  rw [List.filter_append]
  have h1 : (rows.filter (fun x => !(decide (eventRowKey x = eventRowKey r)))).filter
      (fun x => decide (eventRowKey x = eventRowKey r)) = [] := by
    rw [List.filter_filter]
    apply List.filter_eq_nil_iff.mpr
    intro a _
    by_cases h : eventRowKey a = eventRowKey r <;> simp [h]
  rw [h1]
  simp

theorem saveMany_singleton (userId : String) (rows : List EventRow)
    (e : CalendarEvent) :
    saveMany userId rows [e] = upsertEventRow rows (eventToRow userId e) := rfl

theorem charSextet_sextetChar : ∀ n, n < 64 →
    charSextet (sextetChar n) = some n := by decide

theorem ne_pad_small : ∀ n, n < 64 → sextetChar n ≠ '=' := by decide

theorem decodeB64_encodeB64 : ∀ bs : List Nat, (∀ b ∈ bs, b < 256) →
    decodeB64 (encodeB64 bs) = some bs := by
  intro bs
  induction bs using encodeB64.induct with
  | case1 =>
    intro _
    rfl
  | case2 b1 =>
    intro h
    have hb1 : b1 < 256 := h b1 (by simp)
    unfold encodeB64 decodeB64
    rw [charSextet_sextetChar (b1 / 4) (by omega),
        charSextet_sextetChar (b1 % 4 * 16) (by omega)]
    simp only [if_pos rfl, and_self, if_true]
    congr 1
    have e1 : b1 / 4 * 4 + b1 % 4 * 16 / 16 = b1 := by omega
    rw [e1]
  | case3 b1 b2 =>
    intro h
    have hb1 : b1 < 256 := h b1 (by simp)
    have hb2 : b2 < 256 := h b2 (by simp)
    unfold encodeB64 decodeB64
    rw [charSextet_sextetChar (b1 / 4) (by omega),
        charSextet_sextetChar (b1 % 4 * 16 + b2 / 16) (by omega)]
    dsimp only
    rw [if_neg (ne_pad_small (b2 % 16 * 4) (by omega))]
    rw [charSextet_sextetChar (b2 % 16 * 4) (by omega)]
    dsimp only
    simp only [if_pos rfl, if_true]
    congr 1
    have e1 : b1 / 4 * 4 + (b1 % 4 * 16 + b2 / 16) / 16 = b1 := by omega
    have e2 : (b1 % 4 * 16 + b2 / 16) % 16 * 16 + b2 % 16 * 4 / 4 = b2 := by omega
    rw [e1, e2]
  | case4 b1 b2 b3 rest ih =>
    intro h
    have hb1 : b1 < 256 := h b1 (by simp)
    have hb2 : b2 < 256 := h b2 (by simp)
    have hb3 : b3 < 256 := h b3 (by simp)
    have hrest := ih (fun b hb => h b (by simp [hb]))
    unfold encodeB64 decodeB64
    rw [charSextet_sextetChar (b1 / 4) (by omega),
        charSextet_sextetChar (b1 % 4 * 16 + b2 / 16) (by omega)]
    dsimp only
    rw [if_neg (ne_pad_small (b2 % 16 * 4 + b3 / 64) (by omega))]
    rw [charSextet_sextetChar (b2 % 16 * 4 + b3 / 64) (by omega)]
    dsimp only
    rw [if_neg (ne_pad_small (b3 % 64) (by omega))]
    rw [charSextet_sextetChar (b3 % 64) (by omega)]
    rw [hrest]
    dsimp only
    congr 1
    have e1 : b1 / 4 * 4 + (b1 % 4 * 16 + b2 / 16) / 16 = b1 := by omega
    have e2 : (b1 % 4 * 16 + b2 / 16) % 16 * 16 + (b2 % 16 * 4 + b3 / 64) / 4 = b2 := by
      omega
    have e3 : (b2 % 16 * 4 + b3 / 64) % 4 * 64 + b3 % 64 = b3 := by omega
    rw [e1, e2, e3]

-- ============================================================
-- Claim theorems
-- ============================================================

/-- Claim C6: for every plaintext and valid key, decrypting the encryption
recovers the plaintext exactly; and decrypt on a tampered ciphertext — one
whose Base64 decoding fails, or whose bytes the authenticated primitive
rejects — returns DecryptionFailed, and can only ever return Ok with a
plaintext the authenticated primitive itself produced (never a silently
wrong one).  The AES-256-GCM primitive is the platform Web Crypto API, so
its AEAD contract (round-trip and authenticity) enters as hypotheses. -/
theorem c6_encrypt_decrypt_roundtrip (prim : AeadPrim)
    (key iv plaintext : List Nat) (tampered : List Char)
    (hivlen : iv.length = IV_LENGTH)
    (hivbytes : ∀ b ∈ iv, b < 256)
    (hencbytes : ∀ b ∈ prim.enc key iv plaintext, b < 256)
    (hround : prim.dec key iv (prim.enc key iv plaintext) = some plaintext) :
    (∀ c, encrypt prim iv plaintext key = .ok c →
      decrypt prim c key = .ok plaintext) ∧
    (∀ combined, decodeB64 tampered = some combined →
      prim.dec key (combined.take IV_LENGTH) (combined.drop IV_LENGTH) = none →
      decrypt prim tampered key =
        .err (.decryptionFailed "decryption failed: corrupt data or wrong key")) ∧
    (decodeB64 tampered = none →
      decrypt prim tampered key =
        .err (.decryptionFailed "decryption failed: corrupt data or wrong key")) ∧
    (∀ pt, decrypt prim tampered key = .ok pt →
      ∃ combined, decodeB64 tampered = some combined ∧
        prim.dec key (combined.take IV_LENGTH) (combined.drop IV_LENGTH)
          = some pt) := by
  have hall : ∀ b ∈ iv ++ prim.enc key iv plaintext, b < 256 := by
    intro b hb
    rcases List.mem_append.mp hb with h | h
    · exact hivbytes b h
    · exact hencbytes b h
  refine ⟨?_, ?_, ?_, ?_⟩
  · intro c hc
    have henc : encrypt prim iv plaintext key =
        .ok (encodeB64 (iv ++ prim.enc key iv plaintext)) := rfl
    rw [henc] at hc
    injection hc with h
    subst h
    unfold decrypt
    rw [decodeB64_encodeB64 _ hall]
    dsimp only
    have htake : (iv ++ prim.enc key iv plaintext).take IV_LENGTH = iv := by
      rw [← hivlen]
      exact List.take_left iv _
    have hdrop : (iv ++ prim.enc key iv plaintext).drop IV_LENGTH =
        prim.enc key iv plaintext := by
      rw [← hivlen]
      exact List.drop_left iv _
    rw [htake, hdrop, hround]
  · intro combined hdec hrej
    unfold decrypt
    rw [hdec]
    dsimp only
    rw [hrej]
  · intro hdec
    unfold decrypt
    rw [hdec]
  · intro pt hpt
    unfold decrypt at hpt
    generalize hdec : decodeB64 tampered = d at hpt
    cases d with
    | none => simp at hpt
    | some combined =>
      dsimp only at hpt
      generalize hrej : prim.dec key (combined.take IV_LENGTH)
        (combined.drop IV_LENGTH) = r at hpt
      cases r with
      | none => simp at hpt
      | some v =>
        injection hpt with h
        exact ⟨combined, rfl, by rw [hrej, h]⟩

/-- Witness for c6_encrypt_decrypt_roundtrip with the toy checksum AEAD: a
concrete plaintext round-trips, and a ciphertext whose Base64 decoding
fails is rejected with DecryptionFailed. -/
theorem c6_encrypt_decrypt_roundtrip_witness :
    decrypt toyAead
      (encodeB64 (List.replicate 12 0 ++
        toyAead.enc [7] (List.replicate 12 0) [104, 105])) [7] =
      .ok [104, 105] ∧
    decrypt toyAead [Char.ofNat 65] [7] =
      .err (.decryptionFailed "decryption failed: corrupt data or wrong key") :=
  ⟨(c6_encrypt_decrypt_roundtrip toyAead [7] (List.replicate 12 0) [104, 105]
      [Char.ofNat 65] (by decide) (by decide) (by decide) (by decide)).1 _ rfl,
   (c6_encrypt_decrypt_roundtrip toyAead [7] (List.replicate 12 0) [104, 105]
      [Char.ofNat 65] (by decide) (by decide) (by decide) (by decide)).2.2.1
     (by decide)⟩

/-- Claim C9: getSecret distinguishes absence from decryption failure — with
no stored row for (userId, key) it returns Ok none; with a stored row whose
authenticated decryption fails it returns the secretReadFailed error, never
Ok none; and an Ok some value is exactly a value the decryption produced. -/
theorem c9_getSecret_distinguishes (prim : AeadPrim) (creds : List CredRow)
    (cryptoKey : List Nat) (userId key : String) :
    (creds.find? (fun r => decide (r.user_id = userId) &&
        decide (r.key = key)) = none →
      getSecret prim creds cryptoKey userId key = .ok none) ∧
    (∀ row, creds.find? (fun r => decide (r.user_id = userId) &&
        decide (r.key = key)) = some row →
      ((∃ e, decrypt prim row.encrypted_value cryptoKey = .err e) →
        getSecret prim creds cryptoKey userId key =
          .err (.secretReadFailed key "failed to decrypt secret")) ∧
      getSecret prim creds cryptoKey userId key ≠ .ok none ∧
      (∀ v, getSecret prim creds cryptoKey userId key = .ok (some v) →
        decrypt prim row.encrypted_value cryptoKey = .ok v)) := by
  constructor
  · intro h
    unfold getSecret
    rw [h]
  · intro row hrow
    unfold getSecret
    rw [hrow]
    dsimp only
    generalize hd : decrypt prim row.encrypted_value cryptoKey = d
    cases d with
    | err e =>
      refine ⟨fun _ => rfl, by simp, fun v hv => ?_⟩
      simp at hv
    | ok v0 =>
      refine ⟨fun he => ?_, by simp, fun v hv => ?_⟩
      · obtain ⟨e, he⟩ := he
        exact Result.noConfusion he
      · injection hv with h
        injection h with h2
        rw [h2]

/-- Witness for c9_getSecret_distinguishes: with no stored rows the lookup
answers Ok none. -/
theorem c9_getSecret_distinguishes_witness :
    getSecret toyAead [] [7] "u" "k" = .ok none :=
  (c9_getSecret_distinguishes toyAead [] [7] "u" "k").1 rfl

/-- Claim C4: for every user and time range, findByRange returns exactly the
cached events of that user whose interval overlaps the range, i.e. those with
start_time at most range.end and end_time at least range.start (so a
multi-day event starting before and ending after the range is included),
ordered by start time ascending. -/
theorem c4_findByRange_overlap_query (rows : List EventRow) (userId : String)
    (range : TimeRange) :
    (∀ r : EventRow, r ∈ findByRange rows userId range ↔
      r ∈ rows ∧ r.user_id = userId ∧ r.start_time ≤ range.«end» ∧
        range.start ≤ r.end_time) ∧
    (findByRange rows userId range).Perm (rows.filter (inRange userId range)) ∧
    List.Pairwise (fun a b : EventRow => a.start_time ≤ b.start_time)
      (findByRange rows userId range) := by
  refine ⟨?_, List.mergeSort_perm _ _, ?_⟩
  · intro r
    unfold findByRange
    rw [List.mem_mergeSort, List.mem_filter]
    simp [inRange, and_assoc]
  · have h := @List.sorted_mergeSort EventRow
      (fun a b : EventRow => decide (a.start_time ≤ b.start_time))
      (fun a b c hab hbc => by
        simp only [decide_eq_true_eq] at *
        omega)
      (fun a b => by
        simp only [Bool.or_eq_true, decide_eq_true_eq]
        omega)
      (rows.filter (inRange userId range))
    exact h.imp (fun hab => by simpa using hab)

/-- Witness for c4_findByRange_overlap_query: a concrete row overlapping a
concrete window is returned by findByRange. -/
theorem c4_findByRange_overlap_query_witness :
    sampleRow ∈ findByRange [sampleRow] "u" { start := 0, «end» := 5 } :=
  ((c4_findByRange_overlap_query [sampleRow] "u"
    { start := 0, «end» := 5 }).1 sampleRow).mpr
    ⟨List.mem_cons_self sampleRow [], rfl, by decide, by decide⟩

/-- Claim C5: saveMany is an idempotent bulk upsert keyed by
(id, calendarId, userId): saving the same event twice leaves exactly one row
for that key, carrying the field values of the latest save, and saving the
empty event list is a no-op on the table. -/
theorem c5_saveMany_idempotent_upsert (userId : String) (rows : List EventRow)
    (e₁ e₂ : CalendarEvent)
    (hk : eventRowKey (eventToRow userId e₁) = eventRowKey (eventToRow userId e₂)) :
    saveMany userId rows [] = rows ∧
    (saveMany userId (saveMany userId rows [e₁]) [e₂]).filter
        (fun r => decide (eventRowKey r = eventRowKey (eventToRow userId e₂))) =
      [eventToRow userId e₂] ∧
    ((saveMany userId (saveMany userId rows [e₁]) [e₂]).filter
        (fun r => decide (eventRowKey r = eventRowKey (eventToRow userId e₂)))).length
      = 1 ∧
    (saveMany userId (saveMany userId rows [e₁]) [e₂]).filter
        (fun r => decide (eventRowKey r = eventRowKey (eventToRow userId e₁))) =
      [eventToRow userId e₂] := by
  have h2 : (saveMany userId (saveMany userId rows [e₁]) [e₂]).filter
      (fun r => decide (eventRowKey r = eventRowKey (eventToRow userId e₂))) =
      [eventToRow userId e₂] := by
    rw [saveMany_singleton, saveMany_singleton]
    exact upsertEventRow_filter_key _ _
  exact ⟨rfl, h2, by rw [h2]; rfl, by rw [hk]; exact h2⟩

theorem findByCalendarId_deleteByCalendar (rows : List EventRow)
    (userId calendarId : String) :
    findByCalendarId (deleteByCalendar rows userId calendarId) userId calendarId
      = [] := by
  unfold findByCalendarId deleteByCalendar
  rw [List.filter_filter]
  have h : (rows.filter (fun r =>
      (decide (r.user_id = userId) && decide (r.calendar_id = calendarId)) &&
      !(decide (r.user_id = userId) && decide (r.calendar_id = calendarId)))) = [] := by
    apply List.filter_eq_nil_iff.mpr
    intro a _
    by_cases h1 : a.user_id = userId <;> by_cases h2 : a.calendar_id = calendarId <;>
      simp [h1, h2]
  rw [h]
  exact List.mergeSort_nil

theorem getTodayRange_eq (now : Int) : getTodayRange now =
    { startDate := msPerDay * ((now + JST_OFFSET_MS) / msPerDay) - JST_OFFSET_MS,
      endDate := msPerDay * ((now + JST_OFFSET_MS) / msPerDay) + (msPerDay - 1) -
        JST_OFFSET_MS } := rfl

theorem getWeekRange_eq (now : Int) : getWeekRange now =
    { startDate := msPerDay * ((now + JST_OFFSET_MS) / msPerDay) - JST_OFFSET_MS,
      endDate := msPerDay * ((now + JST_OFFSET_MS) / msPerDay) + 7 * msPerDay +
        (msPerDay - 1) - JST_OFFSET_MS } := rfl

/-- Claim C2 counterexample: after the DELETE handler removes calendar A of
user u, the cached events of A are gone and other events survive, but the
calendar_sync_state row of (A, u) is still there, so getLastSyncTime still
answers the old timestamp instead of none, refuting the claim that deletion
removes the sync state. -/
theorem c2_delete_counterexample :
    (deleteCalendarHandler
        (.ok (some [{ id := "A", type := "ical", name := "Cal A",
                      enabled := true, color := none,
                      googleAccountEmail := none, googleCalendarId := none,
                      icalUrl := some "https://example.com/a.ics" }]))
        true true
        { events := [{ id := "e1", calendar_id := "A", user_id := "u",
                       title := "x", start_time := 0, end_time := 1,
                       is_all_day := 0, location := none, description := none,
                       source_type := "ical", source_calendar_name := "Cal A",
                       source_account_email := none },
                     { id := "e2", calendar_id := "B", user_id := "u",
                       title := "y", start_time := 2, end_time := 3,
                       is_all_day := 0, location := none, description := none,
                       source_type := "ical", source_calendar_name := "Cal B",
                       source_account_email := none }],
          syncState := [{ calendar_id := "A", user_id := "u",
                          last_sync_time := 5 }],
          calendars := [] } "u" "A").status = 204 ∧
    ¬(getLastSyncTime
        (deleteCalendarHandler
          (.ok (some [{ id := "A", type := "ical", name := "Cal A",
                        enabled := true, color := none,
                        googleAccountEmail := none, googleCalendarId := none,
                        icalUrl := some "https://example.com/a.ics" }]))
          true true
          { events := [{ id := "e1", calendar_id := "A", user_id := "u",
                         title := "x", start_time := 0, end_time := 1,
                         is_all_day := 0, location := none, description := none,
                         source_type := "ical", source_calendar_name := "Cal A",
                         source_account_email := none },
                       { id := "e2", calendar_id := "B", user_id := "u",
                         title := "y", start_time := 2, end_time := 3,
                         is_all_day := 0, location := none, description := none,
                         source_type := "ical", source_calendar_name := "Cal B",
                         source_account_email := none }],
            syncState := [{ calendar_id := "A", user_id := "u",
                            last_sync_time := 5 }],
            calendars := [] } "u" "A").db.syncState "u" "A" = none) := by
  decide

/-- Claim C2 amended: a successful DELETE (status 204, event deletion
statement succeeding) removes exactly the cached events of that
(calendarId, userId) — findByCalendarId afterwards returns the empty list and
every event row of any other calendar or user survives unchanged — but the
handler never touches calendar_sync_state, so the sync state (and hence
getLastSyncTime) is left exactly as before instead of being removed. -/
theorem c2_delete_cascades_events_only (calendars : List CalendarConfig)
    (i : Nat) (db : Db) (userId id : String)
    (hfound : calendars.findIdx? (fun c => c.id = id) = some i) :
    deleteCalendarHandler (.ok (some calendars)) true true db userId id =
      { status := 204,
        calendarsSetting := some (calendars.take i ++ calendars.drop (i + 1)),
        db := { db with events := deleteByCalendar db.events userId id } } ∧
    findByCalendarId (deleteByCalendar db.events userId id) userId id = [] ∧
    (∀ r ∈ db.events, ¬(r.user_id = userId ∧ r.calendar_id = id) →
      r ∈ deleteByCalendar db.events userId id) ∧
    (∀ r ∈ deleteByCalendar db.events userId id, r ∈ db.events) ∧
    ({ db with events := deleteByCalendar db.events userId id } : Db).syncState =
      db.syncState := by
  refine ⟨?_, findByCalendarId_deleteByCalendar _ _ _, ?_, ?_, rfl⟩
  · simp [deleteCalendarHandler, hfound]
  · intro r hr hne
    refine List.mem_filter.mpr ⟨hr, ?_⟩
    by_cases h1 : r.user_id = userId <;> by_cases h2 : r.calendar_id = id <;>
      simp [h1, h2] at hne ⊢
  · intro r hr
    exact (List.mem_filter.mp hr).1

/-- Witness for c2_delete_cascades_events_only: the concrete deletion of
calendar A for user u reaches status 204 and leaves the sync state intact. -/
theorem c2_delete_cascades_events_only_witness :
    (deleteCalendarHandler
        (.ok (some [{ id := "A", type := "ical", name := "Cal A",
                      enabled := true, color := none,
                      googleAccountEmail := none, googleCalendarId := none,
                      icalUrl := some "https://example.com/a.ics" }]))
        true true
        { events := [], syncState := [], calendars := [] } "u" "A").status = 204 :=
  by
  have h := (c2_delete_cascades_events_only
    [{ id := "A", type := "ical", name := "Cal A",
       enabled := true, color := none,
       googleAccountEmail := none, googleCalendarId := none,
       icalUrl := some "https://example.com/a.ics" }] 0
    { events := [], syncState := [], calendars := [] } "u" "A" (by decide)).1
  rw [h]

/-- Claim C8 counterexample: at the instant 0 the claim that getWeekRange
starts at the target-timezone midnight of the current day AND ends exactly
7 times msPerDay minus 1 after its start is false: the window actually spans
8 calendar days. -/
theorem c8_week_window_counterexample :
    ¬(((getWeekRange 0).startDate + JST_OFFSET_MS) % msPerDay = 0 ∧
      (getWeekRange 0).startDate ≤ 0 ∧
      (0 : Int) < (getWeekRange 0).startDate + msPerDay ∧
      (getWeekRange 0).endDate = (getWeekRange 0).startDate + 7 * msPerDay - 1) := by
  decide

/-- Claim C8 amended: at every instant, getTodayRange and getWeekRange are
calendar-day-aligned in the fixed JST timezone (independent of any server
timezone: the computation uses only the absolute clock and the fixed offset):
both start at the JST midnight of the current JST day; getTodayRange ends at
the last millisecond of that day; but getWeekRange ends at the last
millisecond of the day 7 days after today, so the week window spans 8 JST
calendar days (today plus the following 7), not 7. -/
theorem c8_ranges_jst_aligned (now : Int) :
    (getWeekRange now).startDate = (getTodayRange now).startDate ∧
    ((getWeekRange now).startDate + JST_OFFSET_MS) % msPerDay = 0 ∧
    (getWeekRange now).startDate ≤ now ∧
    now < (getWeekRange now).startDate + msPerDay ∧
    (getTodayRange now).endDate = (getTodayRange now).startDate + msPerDay - 1 ∧
    (getWeekRange now).endDate = (getWeekRange now).startDate + 8 * msPerDay - 1 := by
  simp only [getTodayRange_eq, getWeekRange_eq]
  refine ⟨?_, ?_, ?_, ?_, ?_, ?_⟩ <;> simp only [msPerDay, JST_OFFSET_MS] <;> omega

theorem saveTokensCall_not_mem_googleGetEvents (now : Int)
    (eff : GoogleProviderEffects) (accountEmail : String) (tokens : OAuthTokens)
    (calendarId : String) (range : TimeRange) :
    ProviderAction.saveTokensCall ∉
      (googleGetEvents now eff accountEmail tokens false calendarId range).2.2 := by
  unfold googleGetEvents ensureValidToken
  cases h : tokenStoreIsTokenExpired now tokens with
  | false => cases eff.fetchResult <;> simp
  | true =>
    cases eff.refreshResult with
    | err e => simp
    | ok newTokens => cases eff.fetchResult <;> simp

theorem saveTokensCall_not_mem_fetchGoogle (seff : SyncEffects)
    (cfg : CalendarConfig) :
    ProviderAction.saveTokensCall ∉ (fetchGoogleCalendarEvents seff cfg).2 := by
  unfold fetchGoogleCalendarEvents
  split
  rotate_right
  · simp
  split
  · simp
  · simp
  · split
    · rename_i oa ob a gid h3 h2 ts t h1 g e f trace heq
      intro hc
      exact saveTokensCall_not_mem_googleGetEvents seff.now (seff.google cfg) a
        t gid seff.timeRange (by rw [heq]; exact hc)
    · rename_i oa ob a gid h3 h2 ts t h1 g evs f trace heq
      intro hc
      exact saveTokensCall_not_mem_googleGetEvents seff.now (seff.google cfg) a
        t gid seff.timeRange (by rw [heq]; exact hc)

/-- Claim C7: before every upstream Google API call the adapter refreshes its
tokens exactly when the expiry falls within the 5-minute safety buffer: with
expiresAt strictly beyond now + 5 minutes, getEvents issues only the upstream
request with no refresh; with expiresAt at or inside the buffer, the first
external action of getEvents is the refresh, before any upstream request. -/
theorem c7_refresh_iff_within_buffer (now : Int) (eff : GoogleProviderEffects)
    (accountEmail : String) (tokens : OAuthTokens) (hasSecretRepo : Bool)
    (calendarId : String) (range : TimeRange) :
    (now + 5 * 60 * 1000 < tokens.expiresAt →
      (googleGetEvents now eff accountEmail tokens hasSecretRepo calendarId
        range).2.2 = [.fetchUpstream]) ∧
    (tokens.expiresAt ≤ now + 5 * 60 * 1000 →
      ((googleGetEvents now eff accountEmail tokens hasSecretRepo calendarId
        range).2.2).head? = some .refreshCall) := by
  constructor
  · intro h
    have hexp : tokenStoreIsTokenExpired now tokens = false := by
      simp only [tokenStoreIsTokenExpired, isTokenExpired, decide_eq_false_iff_not]
      omega
    unfold googleGetEvents ensureValidToken
    rw [hexp]
    cases eff.fetchResult <;> simp
  · intro h
    have hexp : tokenStoreIsTokenExpired now tokens = true := by
      simp only [tokenStoreIsTokenExpired, isTokenExpired, decide_eq_true_eq]
      omega
    unfold googleGetEvents ensureValidToken
    rw [hexp]
    cases eff.refreshResult with
    | err e => simp
    | ok newTokens => cases hasSecretRepo <;> cases eff.fetchResult <;> simp

/-- Witness for c7_refresh_iff_within_buffer: a token fresh for far longer
than the buffer is used without a refresh. -/
theorem c7_refresh_iff_within_buffer_witness :
    (googleGetEvents 10000000
      { refreshResult := .ok (sampleTokens 999999999), saveResult := .ok (),
        fetchResult := .ok [] }
      "a@example.com" (sampleTokens 999999999) false "primary"
      { start := 0, «end» := 1 }).2.2 = [.fetchUpstream] :=
  (c7_refresh_iff_within_buffer 10000000
    { refreshResult := .ok (sampleTokens 999999999), saveResult := .ok (),
      fetchResult := .ok [] }
    "a@example.com" (sampleTokens 999999999) false "primary"
    { start := 0, «end» := 1 }).1 (by decide)

/-- Claim C3 counterexample: in a concrete all-calendar sync run whose Google
token is expired and whose refresh succeeds, the trace contains the refresh
but no Secret Store write-back at all: syncAllCalendars builds the provider
without a secret repository, so the refreshed pair is never persisted. -/
theorem c3_sync_no_writeback_counterexample :
    ProviderAction.refreshCall ∈ (syncAllCalendars sampleEffects emptyDb "u").2.2 ∧
    ProviderAction.saveTokensCall ∉ (syncAllCalendars sampleEffects emptyDb "u").2.2 := by
  decide

/-- Claim C3 amended: when the Google adapter is constructed WITH a secret
repository, a successful refresh swaps the in-memory tokens and attempts the
Secret Store write-back, and the call succeeds regardless of the write-back
outcome (failure is only a warning); but the sync use case constructs the
provider WITHOUT a repository (part_008 line 592), so during a sync no
write-back is ever attempted and the run proceeds with the new in-memory
tokens only. -/
theorem c3_token_writeback_amended (now : Int) (eff : GoogleProviderEffects)
    (accountEmail : String) (tokens newTokens : OAuthTokens)
    (seff : SyncEffects) (cfg : CalendarConfig)
    (hexp : tokens.expiresAt ≤ now + 5 * 60 * 1000)
    (hrefresh : eff.refreshResult = .ok newTokens) :
    ensureValidToken now eff accountEmail tokens true =
      (.ok (), newTokens, [.refreshCall, .saveTokensCall]) ∧
    ProviderAction.saveTokensCall ∉ (fetchGoogleCalendarEvents seff cfg).2 := by
  constructor
  · have hb : tokenStoreIsTokenExpired now tokens = true := by
      simp only [tokenStoreIsTokenExpired, isTokenExpired, decide_eq_true_eq]
      omega
    unfold ensureValidToken
    rw [hb, hrefresh]
    rfl
  · exact saveTokensCall_not_mem_fetchGoogle seff cfg

/-- Witness for c3_token_writeback_amended at the concrete expired token and
successful refresh. -/
theorem c3_token_writeback_amended_witness :
    ensureValidToken 10000000
      { refreshResult := .ok (sampleTokens 999999999), saveResult := .ok (),
        fetchResult := .ok [] }
      "a@example.com" (sampleTokens 0) true =
      (.ok (), sampleTokens 999999999, [.refreshCall, .saveTokensCall]) :=
  (c3_token_writeback_amended 10000000
    { refreshResult := .ok (sampleTokens 999999999), saveResult := .ok (),
      fetchResult := .ok [] }
    "a@example.com" (sampleTokens 0) (sampleTokens 999999999) sampleEffects
    sampleGoogleConfig (by decide) rfl).1

theorem syncFanOut_cons (eff : SyncEffects) (u : String) (st : Int)
    (cfg : CalendarConfig) (rest : List CalendarConfig) (db : Db) :
    syncFanOut eff u st (cfg :: rest) db =
      ((syncSingleCalendar eff db cfg u st).1 ::
        (syncFanOut eff u st rest (syncSingleCalendar eff db cfg u st).2.1).1,
       (syncFanOut eff u st rest (syncSingleCalendar eff db cfg u st).2.1).2.1,
       (syncSingleCalendar eff db cfg u st).2.2 ++
        (syncFanOut eff u st rest (syncSingleCalendar eff db cfg u st).2.1).2.2) :=
  rfl

theorem syncSingleCalendar_fst (eff : SyncEffects) (db : Db)
    (cfg : CalendarConfig) (u : String) (st : Int) :
    (syncSingleCalendar eff db cfg u st).1.success = !(calendarFails eff cfg) ∧
    (syncSingleCalendar eff db cfg u st).1.error.isSome = calendarFails eff cfg := by
  unfold syncSingleCalendar calendarFails
  generalize fetchEventsFromProvider eff cfg = p
  obtain ⟨res, tr⟩ := p
  cases res with
  | err e => simp [Result.isErr]
  | ok evs => cases hs : eff.saveOk cfg <;> simp [Result.isErr, hs]

theorem errCalendarInfoOf_syncSingle (eff : SyncEffects) (db : Db)
    (cfg : CalendarConfig) (u : String) (st : Int) :
    (errCalendarInfoOf (syncSingleCalendar eff db cfg u st).1).isSome =
      calendarFails eff cfg := by
  have h := syncSingleCalendar_fst eff db cfg u st
  unfold errCalendarInfoOf
  cases hf : calendarFails eff cfg
  · rw [hf] at h
    simp [h.1]
  · rw [hf] at h
    obtain ⟨e, he⟩ := Option.isSome_iff_exists.mp h.2
    simp [h.1, he]

theorem length_filter_not_add {α : Type} (p : α → Bool) (l : List α) :
    (l.filter (fun a => !(p a))).length + (l.filter p).length = l.length := by
  induction l with
  | nil => rfl
  | cons a l ih =>
    cases h : p a <;> simp only [List.filter_cons, h] <;> simp <;> omega

theorem syncFanOut_counts (eff : SyncEffects) (u : String) (st : Int)
    (cfgs : List CalendarConfig) (db : Db) :
    (syncFanOut eff u st cfgs db).1.length = cfgs.length ∧
    ((syncFanOut eff u st cfgs db).1.filter (fun r => r.success)).length =
      (cfgs.filter (fun c => !(calendarFails eff c))).length ∧
    ((syncFanOut eff u st cfgs db).1.filterMap errCalendarInfoOf).length =
      (cfgs.filter (fun c => calendarFails eff c)).length := by
  induction cfgs generalizing db with
  | nil => simp [syncFanOut]
  | cons cfg rest ih =>
    rw [syncFanOut_cons]
    obtain ⟨ihl, ihs, ihe⟩ := ih (syncSingleCalendar eff db cfg u st).2.1
    have hs := syncSingleCalendar_fst eff db cfg u st
    have he := errCalendarInfoOf_syncSingle eff db cfg u st
    refine ⟨by simp [ihl], ?_, ?_⟩
    · cases hf : calendarFails eff cfg
      · rw [hf] at hs
        simp [List.filter_cons, hs.1, hf, ihs]
      · rw [hf] at hs
        simp [List.filter_cons, hs.1, hf, ihs]
    · cases hf : calendarFails eff cfg
      · rw [hf] at he
        have hnone : errCalendarInfoOf (syncSingleCalendar eff db cfg u st).1 =
            none := by
          cases hg : errCalendarInfoOf (syncSingleCalendar eff db cfg u st).1
          · rfl
          · rw [hg] at he
            simp at he
        simp [List.filterMap_cons, hnone, hf, ihe]
      · rw [hf] at he
        obtain ⟨v, hv⟩ := Option.isSome_iff_exists.mp he
        simp [List.filterMap_cons, hv, hf, ihe]

/-- Claim C1: for every stored calendar list, syncAllCalendars returns an Ok
report with totalCount the number of enabled calendars, errorCalendars one
entry per failing per-calendar sync, successCount the number of succeeding
ones (so successCount is N minus M and the two always add up to N); the only
whole-batch error is a config-load failure, which short-circuits before
fan-out; and with zero enabled calendars it returns the empty success report
without invoking any provider adapter (empty external-action trace). -/
theorem c1_syncAllCalendars_report (eff : SyncEffects) (db : Db)
    (userId : String) :
    (∀ e, eff.configLoad = .err e →
      syncAllCalendars eff db userId =
        (.err (syncConfigError "failed to load settings"), db, [])) ∧
    (∀ stored, eff.configLoad = .ok stored →
      ∃ r : SyncAllResult, (syncAllCalendars eff db userId).1 = .ok r ∧
        r.totalCount = ((stored.getD []).filter (fun c => c.enabled)).length ∧
        r.errorCalendars.length =
          (((stored.getD []).filter (fun c => c.enabled)).filter
            (fun c => calendarFails eff c)).length ∧
        r.successCount + r.errorCalendars.length = r.totalCount ∧
        r.successCount = r.totalCount - r.errorCalendars.length ∧
        ((stored.getD []).filter (fun c => c.enabled) = [] →
          r = { successCount := 0, errorCalendars := [], totalCount := 0,
                syncedAt := eff.now } ∧
          (syncAllCalendars eff db userId).2.2 = [])) := by
  constructor
  · intro e he
    unfold syncAllCalendars
    rw [he]
  · intro stored hload
    unfold syncAllCalendars
    rw [hload]
    dsimp only
    cases hemp : ((stored.getD []).filter (fun c => c.enabled)).isEmpty with
    | true =>
      have henb : (stored.getD []).filter (fun c => c.enabled) = [] :=
        List.isEmpty_iff.mp hemp
      exact ⟨{ successCount := 0, errorCalendars := [], totalCount := 0,
               syncedAt := eff.now }, rfl, by simp [henb], by simp [henb],
             by simp, by simp, fun _ => ⟨rfl, rfl⟩⟩
    | false =>
      obtain ⟨hl, hs, he⟩ := syncFanOut_counts eff userId eff.now
        ((stored.getD []).filter (fun c => c.enabled)) db
      refine ⟨_, rfl, rfl, he, ?_, ?_, ?_⟩
      · dsimp only
        rw [hs, he]
        exact length_filter_not_add _ _
      · dsimp only
        rw [hs, he]
        have h3 := length_filter_not_add (fun c => calendarFails eff c)
          ((stored.getD []).filter (fun c => c.enabled))
        omega
      · intro h
        rw [h] at hemp
        simp at hemp

/-- Witness for c1_syncAllCalendars_report: the concrete two-calendar run
(an expired-but-refreshable Google calendar and an iCal calendar, both
succeeding) yields an Ok report. -/
theorem c1_syncAllCalendars_report_witness :
    ∃ r : SyncAllResult, (syncAllCalendars sampleEffects emptyDb "u").1 = .ok r ∧
      r.totalCount = (((some [sampleGoogleConfig, sampleICalConfig] :
        Option (List CalendarConfig)).getD []).filter (fun c => c.enabled)).length := by
  obtain ⟨r, h1, h2, _⟩ := (c1_syncAllCalendars_report sampleEffects emptyDb
    "u").2 (some [sampleGoogleConfig, sampleICalConfig]) rfl
  exact ⟨r, h1, h2⟩

theorem syncSingleCalendar_frame (eff : SyncEffects) (db : Db)
    (cfg : CalendarConfig) (u : String) (st : Int) (r : EventRow)
    (hmem : r ∈ db.events)
    (hkeys : ∀ evs, (fetchEventsFromProvider eff cfg).1 = .ok evs →
      ∀ e ∈ evs, eventRowKey r ≠ eventRowKey (eventToRow u e)) :
    r ∈ (syncSingleCalendar eff db cfg u st).2.1.events := by
  unfold syncSingleCalendar
  generalize hp : fetchEventsFromProvider eff cfg = p at hkeys ⊢
  obtain ⟨res, tr⟩ := p
  cases res with
  | err e => exact hmem
  | ok evs =>
    have hk := hkeys evs rfl
    cases hens : eff.ensureOk cfg <;> cases hsave : eff.saveOk cfg <;>
      cases hupd : eff.updateOk cfg <;>
      simp only [hens, hsave, hupd, if_true, if_false, Bool.false_eq_true] <;>
      first
        | exact hmem
        | exact saveMany_mem_of_key_not_saved hmem hk

theorem syncFanOut_frame (eff : SyncEffects) (u : String) (st : Int)
    (cfgs : List CalendarConfig) (db : Db) (r : EventRow)
    (hmem : r ∈ db.events)
    (hkeys : ∀ cfg ∈ cfgs, ∀ evs,
      (fetchEventsFromProvider eff cfg).1 = .ok evs →
      ∀ e ∈ evs, eventRowKey r ≠ eventRowKey (eventToRow u e)) :
    r ∈ (syncFanOut eff u st cfgs db).2.1.events := by
  revert hmem hkeys
  induction cfgs generalizing db with
  | nil =>
    intro hmem _
    exact hmem
  | cons cfg rest ih =>
    intro hmem hkeys
    rw [syncFanOut_cons]
    exact ih (syncSingleCalendar eff db cfg u st).2.1
      (syncSingleCalendar_frame eff db cfg u st r hmem
        (hkeys cfg (List.mem_cons_self cfg rest)))
      (fun c hc => hkeys c (List.mem_cons_of_mem cfg hc))

/-- Claim C10: sync never deletes cached events.  Both syncCalendar and the
per-calendar step of syncAllCalendars write to the cache only through
upserts, so every event row present before the run whose
(id, calendarId, userId) key is not among the freshly fetched events of any
configured calendar is still present (the identical row) afterwards. -/
theorem c10_sync_preserves_unrelated_rows (eff : SyncEffects) (db : Db)
    (userId : String) (stored : Option (List CalendarConfig)) (r : EventRow)
    (hload : eff.configLoad = .ok stored)
    (hmem : r ∈ db.events)
    (hkeys : ∀ cfg ∈ stored.getD [], ∀ evs,
      (fetchEventsFromProvider eff cfg).1 = .ok evs →
      ∀ e ∈ evs, eventRowKey r ≠ eventRowKey (eventToRow userId e)) :
    r ∈ (syncAllCalendars eff db userId).2.1.events ∧
    ∀ calendarId, r ∈ (syncCalendar eff db userId calendarId).2.1.events := by
  constructor
  · unfold syncAllCalendars
    rw [hload]
    dsimp only
    cases hemp : ((stored.getD []).filter (fun c => c.enabled)).isEmpty with
    | true => exact hmem
    | false =>
      exact syncFanOut_frame eff userId eff.now _ db r hmem
        (fun cfg hc => hkeys cfg (List.mem_of_mem_filter hc))
  · intro calendarId
    unfold syncCalendar
    rw [hload]
    dsimp only
    cases hfind : (stored.getD []).find? (fun c => c.id = calendarId) with
    | none => exact hmem
    | some cfg =>
      dsimp only
      have hk := hkeys cfg (List.mem_of_find?_eq_some hfind)
      generalize hp : fetchEventsFromProvider eff cfg = p at hk ⊢
      obtain ⟨res, tr⟩ := p
      cases res with
      | err e => exact hmem
      | ok evs =>
        cases hsave : eff.saveOk cfg <;> cases hupd : eff.updateOk cfg <;>
          simp only [hsave, hupd, if_true, if_false, Bool.false_eq_true] <;>
          first
            | exact hmem
            | exact saveMany_mem_of_key_not_saved hmem (hk evs rfl)

/-- Witness for c10_sync_preserves_unrelated_rows: a pre-existing row of an
unrelated calendar survives the concrete two-calendar sync run (both fetches
return no events) and a single-calendar sync. -/
theorem c10_sync_preserves_unrelated_rows_witness :
    sampleRow ∈ (syncAllCalendars sampleEffects sampleDb "u").2.1.events ∧
    sampleRow ∈ (syncCalendar sampleEffects sampleDb "u" "gcal").2.1.events := by
  have hk : ∀ cfg ∈ ((some [sampleGoogleConfig, sampleICalConfig] :
      Option (List CalendarConfig)).getD []), ∀ evs,
      (fetchEventsFromProvider sampleEffects cfg).1 = .ok evs →
      ∀ e ∈ evs, eventRowKey sampleRow ≠ eventRowKey (eventToRow "u" e) := by
    intro cfg hc evs hevs e he
    simp only [Option.getD_some, List.mem_cons, List.not_mem_nil, or_false] at hc
    rcases hc with rfl | rfl
    · have hg : (fetchEventsFromProvider sampleEffects sampleGoogleConfig).1 =
          Result.ok [] := by decide
      rw [hg] at hevs
      have hnil : evs = [] := by
        injection hevs with h
        exact h.symm
      subst hnil
      exact absurd he (List.not_mem_nil e)
    · have hg : (fetchEventsFromProvider sampleEffects sampleICalConfig).1 =
          Result.ok [] := by decide
      rw [hg] at hevs
      have hnil : evs = [] := by
        injection hevs with h
        exact h.symm
      subst hnil
      exact absurd he (List.not_mem_nil e)
  have h := c10_sync_preserves_unrelated_rows sampleEffects sampleDb "u"
    (some [sampleGoogleConfig, sampleICalConfig]) sampleRow rfl
    (List.mem_cons_self sampleRow []) hk
  exact ⟨h.1, h.2 "gcal"⟩

/-- Witness for c5_saveMany_idempotent_upsert at a concrete event saved
twice. -/
theorem c5_saveMany_idempotent_upsert_witness :
    (saveMany "u" (saveMany "u" []
        [{ id := "e", calendarId := "c", title := "a", startTime := 0,
           endTime := 1, isAllDay := false, location := none,
           description := none,
           source := { type := "ical", calendarName := "n",
                       accountEmail := none } }])
        [{ id := "e", calendarId := "c", title := "b", startTime := 2,
           endTime := 3, isAllDay := true, location := none,
           description := none,
           source := { type := "ical", calendarName := "n",
                       accountEmail := none } }]).filter
      (fun r => decide (eventRowKey r = eventRowKey (eventToRow "u"
        { id := "e", calendarId := "c", title := "b", startTime := 2,
          endTime := 3, isAllDay := true, location := none,
          description := none,
          source := { type := "ical", calendarName := "n",
                      accountEmail := none } }))) =
      [eventToRow "u"
        { id := "e", calendarId := "c", title := "b", startTime := 2,
          endTime := 3, isAllDay := true, location := none,
          description := none,
          source := { type := "ical", calendarName := "n",
                      accountEmail := none } }] :=
  (c5_saveMany_idempotent_upsert "u" [] _ _ (by decide)).2.1

end Miipa
